import Mathlib

/-!
Verification of the dynamic SQL construction layer of a small relational-data
API backend (an express/jobly-style application): the partial-update `SET`
clause builder `sqlForPartialUpdate`, the filtered-query builder of the jobs
model (`Job.findAll`), the two-step read `Job.get`, and the query construction
of `Job.update`.  JavaScript values are embedded as a small tagged union
`JsValue`; JS objects (payloads and field maps) are insertion-ordered
association lists; thrown errors become an `Except` error kind.
-/

set_option maxRecDepth 10000

namespace Jobly

/-- The opaque heterogeneous JS value type flowing through the builders:
string, number, boolean or null (a missing key is `Option.none` at the use
site rather than a value). -/
inductive JsValue where
  | str (s : String)
  | num (n : Int)
  | bool (b : Bool)
  | null
deriving DecidableEq, Repr

/-- JavaScript truthiness test (for `jsToSql[colName] || colName`): the empty
string, the number 0, `false` and `null` are falsy; everything else is
truthy. -/
def JsValue.falsy : JsValue → Bool
  | .str s => s = ""
  | .num n => n = 0
  | .bool b => !b
  | .null => true

/-- JavaScript string coercion as performed by a template literal
`${v}`. -/
def JsValue.jsToString : JsValue → String
  | .str s => s
  | .num n => toString n
  | .bool b => if b then "true" else "false"
  | .null => "null"

/-- The error kinds raised by this core: `BadRequestError` (invalid input)
and `NotFoundError`, each carrying its message. -/
inductive JoblyError where
  | badRequest (msg : String)
  | notFound (msg : String)
deriving DecidableEq, Repr

/-- Column-name resolution of `sqlForPartialUpdate`: the JS expression
`${jsToSql[colName] || colName}` — look `colName` up in the field map; if the
entry is absent (undefined) or falsy, fall back to `colName` itself, else
string-coerce the mapped value. -/
def resolveCol (jsToSql : List (String × JsValue)) (colName : String) : String :=
  match jsToSql.lookup colName with
  | none => colName
  | some v => if v.falsy then colName else v.jsToString

/-- The function `sqlForPartialUpdate(dataToUpdate, jsToSql)` from
`helpers/sql.js`: take the payload's keys in insertion order; if there are none, throw
`BadRequestError("No data")`; otherwise map each key at 0-based index `idx`
to the fragment `"<column>"=$<idx+1>` (column resolved through `jsToSql`
with fallback), join with `", "`, and return that clause together with
`Object.values(dataToUpdate)`. -/
def sqlForPartialUpdate (dataToUpdate : List (String × JsValue))
    (jsToSql : List (String × JsValue)) :
    Except JoblyError (String × List JsValue) :=
  let keys := dataToUpdate.map Prod.fst
  if keys.length = 0 then .error (.badRequest "No data")
  else
    let cols := keys.enum.map
      (fun p => "\"" ++ resolveCol jsToSql p.2 ++ "\"=$" ++ toString (p.1 + 1))
    .ok (String.intercalate ", " cols, dataToUpdate.map Prod.snd)

/-- The destructured criteria record of `Job.findAll({ minSalary, hasEquity,
title } = {})`; each field is independently optional (`none` models a JS
`undefined` field). -/
structure JobFindAllCriteria where
  minSalary : Option JsValue := none
  hasEquity : Option JsValue := none
  title : Option JsValue := none
deriving DecidableEq, Repr

/-- The fixed base `SELECT` of `Job.findAll` (jobs left-joined to companies
for the denormalized company name), exactly as in the template literal. -/
def jobBaseQuery : String :=
  "SELECT j.id,\n" ++
  "                        j.title,\n" ++
  "                        j.salary,\n" ++
  "                        j.equity,\n" ++
  "                        j.company_handle AS \"companyHandle\",\n" ++
  "                        c.name AS \"companyName\"\n" ++
  "                 FROM jobs j \n" ++
  "                   LEFT JOIN companies AS c ON c.handle = j.company_handle"

/-- The `WHERE`-clause/parameter accumulation of `Job.findAll`: the two
arrays `queryWhereClauses` and `queryParameters`, filled by the three `if`
statements in source order — `minSalary !== undefined` pushes the value and
`salary >= $<length>`; `hasEquity === true` pushes the literal clause
`equity > 0` (no parameter); `title !== undefined` pushes the pattern
`%<title>%` and `title ILIKE $<length>`. -/
def jobFindAllFilter (c : JobFindAllCriteria) : List String × List JsValue :=
  let queryWhereClauses : List String := []
  let queryParameters : List JsValue := []
  let (queryWhereClauses, queryParameters) :=
    match c.minSalary with
    | some minSalary =>
      let queryParameters := queryParameters ++ [minSalary]
      (queryWhereClauses ++ ["salary >= $" ++ toString queryParameters.length],
       queryParameters)
    | none => (queryWhereClauses, queryParameters)
  let queryWhereClauses :=
    if c.hasEquity = some (.bool true) then queryWhereClauses ++ ["equity > 0"]
    else queryWhereClauses
  let (queryWhereClauses, queryParameters) :=
    match c.title with
    | some title =>
      let queryParameters :=
        queryParameters ++ [.str ("%" ++ title.jsToString ++ "%")]
      (queryWhereClauses ++ ["title ILIKE $" ++ toString queryParameters.length],
       queryParameters)
    | none => (queryWhereClauses, queryParameters)
  (queryWhereClauses, queryParameters)

namespace Job

/-- Statement construction of `Job.findAll`: base query, plus
`" WHERE " + clauses.join(" AND ")` only when at least one clause was
emitted, plus the unconditional trailing `" ORDER BY title"`; returns the
statement text and the positional parameter list handed to `db.query`. -/
def findAll (c : JobFindAllCriteria) : String × List JsValue :=
  let (queryWhereClauses, queryParameters) := jobFindAllFilter c
  let query := jobBaseQuery ++
    (if queryWhereClauses.length > 0 then
      " WHERE " ++ String.intercalate " AND " queryWhereClauses
     else "")
  (query ++ " ORDER BY title", queryParameters)

end Job

/-- A row of the `companies` table in the shape selected by `Job.get`'s
second query (`num_employees AS "numEmployees"`, `logo_url AS "logoUrl"`). -/
structure CompanyRow where
  handle : String
  name : String
  description : String
  numEmployees : JsValue
  logoUrl : JsValue
deriving DecidableEq, Repr

/-- A row of the `jobs` table in the shape selected by `Job.get`'s first
query (`company_handle AS "companyHandle"`). -/
structure JobRow where
  id : Int
  title : String
  salary : JsValue
  equity : JsValue
  companyHandle : String
deriving DecidableEq, Repr

/-- The relational state visible to `Job.get`: the rows of the two tables it
queries.  A `SELECT ... WHERE <col> = $1` is embedded as a filter over the
row list, and `rows[0]` as `List.head?`. -/
structure Database where
  jobs : List JobRow
  companies : List CompanyRow
deriving Repr

/-- The result shape of `Job.get` after `delete job.companyHandle` and
`job.company = companyResults.rows[0]`: the raw foreign key is gone from
the top level and the fetched company record (possibly `undefined`, i.e.
`none`) is nested in its place. -/
structure JobGetResult where
  id : Int
  title : String
  salary : JsValue
  equity : JsValue
  company : Option CompanyRow
deriving DecidableEq, Repr

namespace Job

/-- The method `Job.get(id)`: query the jobs table for `id = $1`; if no row matches,
throw `NotFoundError` with the message carrying the missing id; otherwise
query the companies table for the job's `companyHandle`, remove the raw
`companyHandle` field and nest the fetched company record in its place. -/
def get (db : Database) (id : Int) : Except JoblyError JobGetResult :=
  let jobResults := db.jobs.filter (fun j => j.id = id)
  match jobResults.head? with
  | none => .error (.notFound ("No job: " ++ toString id))
  | some job =>
    let companyResults := db.companies.filter (fun c => c.handle = job.companyHandle)
    .ok { id := job.id, title := job.title, salary := job.salary,
          equity := job.equity, company := companyResults.head? }

/-- The statement construction of `Job.update(id, data)` up to the
`db.query` call: build the `SET` clause with `sqlForPartialUpdate(data, {})`
(an empty field map), compute `jobIdIndex = "$" + (values.length + 1)`,
splice both into the `UPDATE` template, and pass `[...values, id]` as the
parameters. -/
def updateStatement (id : JsValue) (data : List (String × JsValue)) :
    Except JoblyError (String × List JsValue) :=
  match sqlForPartialUpdate data [] with
  | .error e => .error e
  | .ok (setCols, values) =>
    let jobIdIndex := "$" ++ toString (values.length + 1)
    let sqlQuery := "UPDATE jobs \n" ++
      "                      SET " ++ setCols ++ " \n" ++
      "                      WHERE id = " ++ jobIdIndex ++ " \n" ++
      "                      RETURNING id, \n" ++
      "                                title, \n" ++
      "                                salary, \n" ++
      "                                equity,\n" ++
      "                                company_handle AS \"companyHandle\""
    .ok (sqlQuery, values ++ [id])

end Job

/-- The recognized company search filters of `GET /companies`
(`routes/companies.js`): `minEmployees`, `maxEmployees`, `nameLike`, each
independently optional.  The route coerces the two bounds with `+q.<field>`
before validation, so a well-formed request carries them as numbers. -/
structure CompanySearchQuery where
  minEmployees : Option JsValue := none
  maxEmployees : Option JsValue := none
  nameLike : Option JsValue := none
deriving DecidableEq, Repr

/-- Modelled from the spec: `schemas/companySearch.json` is not under
`src/`; per the spec it is a per-field schema check ("already type-coerced
and schema-validated by an external validator", unrecognized criteria
"rejected upstream by schema validation") — each bound, when present, must
be a number and `nameLike` a string.  Unrecognized keys are excluded here by
the record type itself.  No cross-field comparison is expressible or
performed at this step. -/
def companySearchSchemaValid (q : CompanySearchQuery) : Bool :=
  (match q.minEmployees with | some v => (match v with | .num _ => true | _ => false) | none => true) &&
  (match q.maxEmployees with | some v => (match v with | .num _ => true | _ => false) | none => true) &&
  (match q.nameLike with | some v => (match v with | .str _ => true | _ => false) | none => true)

/-- Modelled from the spec: the company-side filter builder
(`models/company.js` is not under `src/`).  Per spec §4.2 it contributes
clauses in the fixed order lower bound (`"<column>" >= $<nextIndex>`), upper
bound (`"<column>" <= $<nextIndex>`), then case-insensitive substring match
on the pushed pattern `%<value>%`; per the spec's design notes,
"cross-field validation (min > max) is presently absent at the builder
level", so no bound comparison happens here either. -/
def companyFindAllFilter (q : CompanySearchQuery) : List String × List JsValue :=
  let queryWhereClauses : List String := []
  let queryParameters : List JsValue := []
  let (queryWhereClauses, queryParameters) :=
    match q.minEmployees with
    | some minEmployees =>
      let queryParameters := queryParameters ++ [minEmployees]
      (queryWhereClauses ++ ["\"num_employees\" >= $" ++ toString queryParameters.length],
       queryParameters)
    | none => (queryWhereClauses, queryParameters)
  let (queryWhereClauses, queryParameters) :=
    match q.maxEmployees with
    | some maxEmployees =>
      let queryParameters := queryParameters ++ [maxEmployees]
      (queryWhereClauses ++ ["\"num_employees\" <= $" ++ toString queryParameters.length],
       queryParameters)
    | none => (queryWhereClauses, queryParameters)
  let (queryWhereClauses, queryParameters) :=
    match q.nameLike with
    | some nameLike =>
      let queryParameters :=
        queryParameters ++ [.str ("%" ++ nameLike.jsToString ++ "%")]
      (queryWhereClauses ++ ["\"name\" ILIKE $" ++ toString queryParameters.length],
       queryParameters)
    | none => (queryWhereClauses, queryParameters)
  (queryWhereClauses, queryParameters)

/-- The `GET /companies` list handler (`routes/companies.js`): after the
numeric coercion of the two bounds, validate the query against
`companySearchSchema` — throwing `BadRequestError` on failure — and
otherwise delegate to the model's `findAll` filter builder.  The handler
body contains no other check between validation and the builder call. -/
def companiesListHandler (q : CompanySearchQuery) :
    Except JoblyError (List String × List JsValue) :=
  if companySearchSchemaValid q then .ok (companyFindAllFilter q)
  else .error (.badRequest "request does not match companySearchSchema")

/-!
Specification-side description of the `SET` clause, for comparison with
`sqlForPartialUpdate`: per the spec, the key at 0-based position `i` emits
the fragment `"<column>"=$<i+1>`, positions counting over the payload's
insertion order.  `updateFragmentsFrom m l k` lists the fragments of the
payload entries `l` occupying positions `k, k+1, …`.
-/

/-- The spec's fragment for a payload key at 0-based position `i`:
`"<column>"=$<i+1>` with the column resolved through the field map. -/
def updateFragment (jsToSql : List (String × JsValue)) (key : String) (i : Nat) : String :=
  "\"" ++ resolveCol jsToSql key ++ "\"=$" ++ toString (i + 1)

/-- Spec-side positional fragment list: fragments of the payload entries
`l`, the first one at 0-based position `k`. -/
def updateFragmentsFrom (jsToSql : List (String × JsValue)) :
    List (String × JsValue) → Nat → List String
  | [], _ => []
  | entry :: rest, k =>
    updateFragment jsToSql entry.1 k :: updateFragmentsFrom jsToSql rest (k + 1)

lemma length_updateFragmentsFrom (m : List (String × JsValue))
    (l : List (String × JsValue)) (k : Nat) :
    (updateFragmentsFrom m l k).length = l.length := by
  induction l generalizing k with
  | nil => rfl
  | cons e rest ih => simp [updateFragmentsFrom, ih]

lemma getD_updateFragmentsFrom (m : List (String × JsValue))
    (l : List (String × JsValue)) (k i : Nat) (hi : i < l.length) :
    (updateFragmentsFrom m l k).getD i "" =
      updateFragment m (l.getD i ("", .null)).1 (k + i) := by
  induction l generalizing k i with
  | nil => simp at hi
  | cons e rest ih =>
    cases i with
    | zero => simp [updateFragmentsFrom]
    | succ j =>
      have hj : j < rest.length := by simpa using hi
      have := ih (k + 1) j hj
      simpa [updateFragmentsFrom, Nat.add_assoc, Nat.add_comm 1 j] using this

lemma updateFragmentsFrom_append (m : List (String × JsValue))
    (u v : List (String × JsValue)) (k : Nat) :
    updateFragmentsFrom m (u ++ v) k =
      updateFragmentsFrom m u k ++ updateFragmentsFrom m v (k + u.length) := by
  induction u generalizing k with
  | nil => simp [updateFragmentsFrom]
  | cons e rest ih =>
    simp [updateFragmentsFrom, ih, Nat.add_assoc, Nat.add_comm 1 rest.length]

/-- On a non-empty payload, `sqlForPartialUpdate` succeeds and returns
exactly the spec's positional fragments (joined with `", "`) together with
the payload's values in insertion order. -/
lemma sqlForPartialUpdate_ok (data m : List (String × JsValue)) (h : data ≠ []) :
    sqlForPartialUpdate data m =
      .ok (String.intercalate ", " (updateFragmentsFrom m data 0),
           data.map Prod.snd) := by
  have hne : ¬ (data.map Prod.fst).length = 0 := by
    simpa [List.length_eq_zero] using h
  have hcols : (data.map Prod.fst).enum.map
      (fun p => "\"" ++ resolveCol m p.2 ++ "\"=$" ++ toString (p.1 + 1)) =
      updateFragmentsFrom m data 0 := by
    apply List.ext_get
    · simp [length_updateFragmentsFrom]
    · intro n h1 h2
      have hn : n < data.length := by simpa using h1
      rw [List.get_eq_getElem, List.get_eq_getElem, List.getElem_map,
        List.getElem_enum, ← List.getD_eq_getElem _ "" h2,
        getD_updateFragmentsFrom m data 0 n hn]
      simp [updateFragment, List.getElem?_eq_getElem hn]
  simp only [sqlForPartialUpdate, hne, if_false]
  rw [hcols]

/-- C1: for every non-empty payload and field map, `sqlForPartialUpdate`
returns the comma-joined fragments `"<column>"=$<i>` with keys in insertion
order and `i` counting 1-based over that order (the fragment at 0-based
position `i` is `"<column of key i>"=$<i+1>`), and the values list is the
payload's values in the same order; swapping two adjacent payload entries
swaps both the corresponding fragments (column parts, with the positional
indices unchanged) and the corresponding values identically, leaving all
other fragments and values unchanged. -/
theorem sqlForPartialUpdate_order_correspondence
    (payload jsToSql xs ys : List (String × JsValue)) (a b : String × JsValue)
    (h : payload ≠ []) :
    (sqlForPartialUpdate payload jsToSql =
       .ok (String.intercalate ", " (updateFragmentsFrom jsToSql payload 0),
            payload.map Prod.snd)) ∧
    (updateFragmentsFrom jsToSql payload 0).length = payload.length ∧
    (∀ i, i < payload.length →
       (updateFragmentsFrom jsToSql payload 0).getD i "" =
         "\"" ++ resolveCol jsToSql (payload.getD i ("", .null)).1 ++ "\"=$" ++
           toString (i + 1)) ∧
    (sqlForPartialUpdate (xs ++ a :: b :: ys) jsToSql =
       .ok (String.intercalate ", "
              (updateFragmentsFrom jsToSql xs 0 ++
               updateFragment jsToSql a.1 xs.length ::
               updateFragment jsToSql b.1 (xs.length + 1) ::
               updateFragmentsFrom jsToSql ys (xs.length + 2)),
            xs.map Prod.snd ++ a.2 :: b.2 :: ys.map Prod.snd)) ∧
    (sqlForPartialUpdate (xs ++ b :: a :: ys) jsToSql =
       .ok (String.intercalate ", "
              (updateFragmentsFrom jsToSql xs 0 ++
               updateFragment jsToSql b.1 xs.length ::
               updateFragment jsToSql a.1 (xs.length + 1) ::
               updateFragmentsFrom jsToSql ys (xs.length + 2)),
            xs.map Prod.snd ++ b.2 :: a.2 :: ys.map Prod.snd)) := by
  refine ⟨sqlForPartialUpdate_ok payload jsToSql h,
    length_updateFragmentsFrom jsToSql payload 0, ?_, ?_, ?_⟩
  · intro i hi
    simpa [updateFragment] using
      getD_updateFragmentsFrom jsToSql payload 0 i hi
  · rw [sqlForPartialUpdate_ok _ _ (by simp), updateFragmentsFrom_append]
    simp [updateFragmentsFrom, Nat.add_assoc]
  · rw [sqlForPartialUpdate_ok _ _ (by simp), updateFragmentsFrom_append]
    simp [updateFragmentsFrom, Nat.add_assoc]

/-- Witness for C1 at the spec's own example: payload
`{a: "x", b: 5}` with map `{a: "col_a", b: "col_b"}`, with the swap
conjuncts instantiated to swapping those same two entries. -/
theorem sqlForPartialUpdate_order_correspondence_witness :
    (sqlForPartialUpdate [("a", .str "x"), ("b", .num 5)]
       [("a", .str "col_a"), ("b", .str "col_b")] =
       .ok (String.intercalate ", "
              (updateFragmentsFrom [("a", .str "col_a"), ("b", .str "col_b")]
                [("a", .str "x"), ("b", .num 5)] 0),
            List.map Prod.snd [("a", .str "x"), ("b", .num 5)])) ∧
    (updateFragmentsFrom [("a", .str "col_a"), ("b", .str "col_b")]
      [("a", .str "x"), ("b", .num 5)] 0).length =
      ([("a", .str "x"), ("b", .num 5)] : List (String × JsValue)).length ∧
    (∀ i, i < ([("a", .str "x"), ("b", .num 5)] : List (String × JsValue)).length →
       (updateFragmentsFrom [("a", .str "col_a"), ("b", .str "col_b")]
         [("a", .str "x"), ("b", .num 5)] 0).getD i "" =
         "\"" ++ resolveCol [("a", .str "col_a"), ("b", .str "col_b")]
           (([("a", .str "x"), ("b", .num 5)] : List (String × JsValue)).getD i
             ("", .null)).1 ++ "\"=$" ++ toString (i + 1)) ∧
    (sqlForPartialUpdate ([] ++ ("a", JsValue.str "x") :: ("b", JsValue.num 5) :: [])
       [("a", .str "col_a"), ("b", .str "col_b")] =
       .ok (String.intercalate ", "
              (updateFragmentsFrom [("a", .str "col_a"), ("b", .str "col_b")] [] 0 ++
               updateFragment [("a", .str "col_a"), ("b", .str "col_b")] "a"
                 ([] : List (String × JsValue)).length ::
               updateFragment [("a", .str "col_a"), ("b", .str "col_b")] "b"
                 (([] : List (String × JsValue)).length + 1) ::
               updateFragmentsFrom [("a", .str "col_a"), ("b", .str "col_b")] []
                 (([] : List (String × JsValue)).length + 2)),
            List.map Prod.snd ([] : List (String × JsValue)) ++
              JsValue.str "x" :: JsValue.num 5 ::
              List.map Prod.snd ([] : List (String × JsValue)))) ∧
    (sqlForPartialUpdate ([] ++ ("b", JsValue.num 5) :: ("a", JsValue.str "x") :: [])
       [("a", .str "col_a"), ("b", .str "col_b")] =
       .ok (String.intercalate ", "
              (updateFragmentsFrom [("a", .str "col_a"), ("b", .str "col_b")] [] 0 ++
               updateFragment [("a", .str "col_a"), ("b", .str "col_b")] "b"
                 ([] : List (String × JsValue)).length ::
               updateFragment [("a", .str "col_a"), ("b", .str "col_b")] "a"
                 (([] : List (String × JsValue)).length + 1) ::
               updateFragmentsFrom [("a", .str "col_a"), ("b", .str "col_b")] []
                 (([] : List (String × JsValue)).length + 2)),
            List.map Prod.snd ([] : List (String × JsValue)) ++
              JsValue.num 5 :: JsValue.str "x" ::
              List.map Prod.snd ([] : List (String × JsValue)))) :=
  sqlForPartialUpdate_order_correspondence
    [("a", .str "x"), ("b", .num 5)]
    [("a", .str "col_a"), ("b", .str "col_b")]
    [] [] ("a", .str "x") ("b", .num 5) (by simp)

/-- C2: for every non-empty payload, the placeholders emitted by
`sqlForPartialUpdate` are contiguous and 1-based — the fragment at 0-based
position `i` carries `$<i+1>`, over exactly `values.length = data.length`
positions — and `Job.update` extends the sequence by splicing the row id
in as parameter `$(values.length + 1)` after the `SET` values. -/
theorem sqlForPartialUpdate_contiguous_and_update_extends
    (data m : List (String × JsValue)) (id : JsValue) (h : data ≠ []) :
    (∃ setCols values, sqlForPartialUpdate data m = .ok (setCols, values) ∧
       values.length = data.length ∧
       setCols = String.intercalate ", " (updateFragmentsFrom m data 0) ∧
       (updateFragmentsFrom m data 0).length = values.length ∧
       (∀ i, i < values.length →
         (updateFragmentsFrom m data 0).getD i "" =
           "\"" ++ resolveCol m (data.getD i ("", .null)).1 ++ "\"=$" ++
             toString (i + 1))) ∧
    (∀ setCols values, sqlForPartialUpdate data [] = .ok (setCols, values) →
       Job.updateStatement id data =
         .ok ("UPDATE jobs \n" ++
              "                      SET " ++ setCols ++ " \n" ++
              "                      WHERE id = " ++
                ("$" ++ toString (values.length + 1)) ++ " \n" ++
              "                      RETURNING id, \n" ++
              "                                title, \n" ++
              "                                salary, \n" ++
              "                                equity,\n" ++
              "                                company_handle AS \"companyHandle\"",
              values ++ [id])) := by
  constructor
  · refine ⟨String.intercalate ", " (updateFragmentsFrom m data 0),
      data.map Prod.snd, sqlForPartialUpdate_ok data m h, by simp, rfl,
      by simp [length_updateFragmentsFrom], ?_⟩
    intro i hi
    have hi' : i < data.length := by simpa using hi
    simpa [updateFragment] using getD_updateFragmentsFrom m data 0 i hi'
  · intro setCols values hv
    simp only [Job.updateStatement, hv]

/-- Witness for C2 at the one-field payload `{f: 1}` updated on row id 9. -/
theorem sqlForPartialUpdate_contiguous_and_update_extends_witness :
    (∃ setCols values,
       sqlForPartialUpdate [("f", JsValue.num 1)] [] = .ok (setCols, values) ∧
       values.length = ([("f", JsValue.num 1)] : List (String × JsValue)).length ∧
       setCols = String.intercalate ", "
         (updateFragmentsFrom [] [("f", JsValue.num 1)] 0) ∧
       (updateFragmentsFrom [] [("f", JsValue.num 1)] 0).length = values.length ∧
       (∀ i, i < values.length →
         (updateFragmentsFrom [] [("f", JsValue.num 1)] 0).getD i "" =
           "\"" ++ resolveCol []
             (([("f", JsValue.num 1)] : List (String × JsValue)).getD i
               ("", .null)).1 ++ "\"=$" ++ toString (i + 1))) ∧
    (∀ setCols values,
       sqlForPartialUpdate [("f", JsValue.num 1)] [] = .ok (setCols, values) →
       Job.updateStatement (JsValue.num 9) [("f", JsValue.num 1)] =
         .ok ("UPDATE jobs \n" ++
              "                      SET " ++ setCols ++ " \n" ++
              "                      WHERE id = " ++
                ("$" ++ toString (values.length + 1)) ++ " \n" ++
              "                      RETURNING id, \n" ++
              "                                title, \n" ++
              "                                salary, \n" ++
              "                                equity,\n" ++
              "                                company_handle AS \"companyHandle\"",
              values ++ [JsValue.num 9])) :=
  sqlForPartialUpdate_contiguous_and_update_extends
    [("f", JsValue.num 1)] [] (JsValue.num 9) (by simp)

/-- C3: with any field map, the empty payload makes `sqlForPartialUpdate`
fail with the bad-request error carrying the fixed message `"No data"` and
produce no clause/value pair, while every non-empty payload succeeds
(never raises this error). -/
theorem sqlForPartialUpdate_empty_payload_error (m : List (String × JsValue)) :
    sqlForPartialUpdate [] m = .error (.badRequest "No data") ∧
    ∀ payload : List (String × JsValue), payload ≠ [] →
      ∃ r, sqlForPartialUpdate payload m = .ok r := by
  refine ⟨rfl, ?_⟩
  intro payload hp
  exact ⟨_, sqlForPartialUpdate_ok payload m hp⟩

/-- Witness for C3 with the field map `{a: "col_a"}` and, for the
non-empty half, the payload `{a: "x"}`. -/
theorem sqlForPartialUpdate_empty_payload_error_witness :
    (sqlForPartialUpdate [] [("a", JsValue.str "col_a")] =
      .error (.badRequest "No data")) ∧
    ∃ r, sqlForPartialUpdate [("a", JsValue.str "x")]
      [("a", JsValue.str "col_a")] = .ok r :=
  ⟨(sqlForPartialUpdate_empty_payload_error [("a", JsValue.str "col_a")]).1,
   (sqlForPartialUpdate_empty_payload_error [("a", JsValue.str "col_a")]).2
     [("a", JsValue.str "x")] (by simp)⟩

/-- C4: the `hasEquity` flag contributes to `Job.findAll` iff its value is
exactly `true`: any other value (including `false` and absent) leaves the
output literally identical to the criteria without the flag — in particular
`{hasEquity: false}` produces the same output as `{}` — while exactly
`true` adds exactly one clause, the literal `equity > 0`, and pushes no
bound value. -/
theorem jobFindAll_hasEquity_asymmetry (c : JobFindAllCriteria) :
    (c.hasEquity ≠ some (.bool true) →
       Job.findAll c = Job.findAll { c with hasEquity := none }) ∧
    (c.hasEquity = some (.bool true) →
       (jobFindAllFilter c).2 = (jobFindAllFilter { c with hasEquity := none }).2 ∧
       (jobFindAllFilter c).1.length =
         (jobFindAllFilter { c with hasEquity := none }).1.length + 1 ∧
       "equity > 0" ∈ (jobFindAllFilter c).1) ∧
    Job.findAll { hasEquity := some (.bool false) } = Job.findAll {} := by
  obtain ⟨ms, he, ti⟩ := c
  refine ⟨?_, ?_, rfl⟩
  · intro hne
    simp only [] at hne
    cases ms <;> cases ti <;> simp [Job.findAll, jobFindAllFilter, hne]
  · intro heq
    simp only [] at heq
    cases ms <;> cases ti <;> simp [jobFindAllFilter, heq]

/-- Witness for C4: both halves at concrete criteria — `{hasEquity: false,
minSalary: 1}` versus dropping the flag, and `{hasEquity: true,
minSalary: 1}` for the one-extra-literal-clause half. -/
theorem jobFindAll_hasEquity_asymmetry_witness :
    (Job.findAll { minSalary := some (.num 1),
                   hasEquity := some (.bool false) } =
       Job.findAll { minSalary := some (.num 1), hasEquity := none }) ∧
    ((jobFindAllFilter { minSalary := some (.num 1),
                         hasEquity := some (.bool true) }).2 =
       (jobFindAllFilter { minSalary := some (.num 1),
                           hasEquity := none }).2 ∧
     (jobFindAllFilter { minSalary := some (.num 1),
                         hasEquity := some (.bool true) }).1.length =
       (jobFindAllFilter { minSalary := some (.num 1),
                           hasEquity := none }).1.length + 1 ∧
     "equity > 0" ∈ (jobFindAllFilter { minSalary := some (.num 1),
                                        hasEquity := some (.bool true) }).1) :=
  ⟨(jobFindAll_hasEquity_asymmetry
      { minSalary := some (.num 1), hasEquity := some (.bool false) }).1
        (by decide),
   (jobFindAll_hasEquity_asymmetry
      { minSalary := some (.num 1), hasEquity := some (.bool true) }).2.1
        (by decide)⟩

/-- C5: `Job.findAll` evaluates the criteria in the fixed order
`minSalary`, `hasEquity`, `title`; the clause list is exactly the
lower-bound predicate (placeholder `$1`), then the literal equity
predicate, then the substring predicate, whose placeholder number equals
the 1-based position of its value in the final parameter list even though
the value-free `equity > 0` clause may be interleaved; the caller joins the
clauses with `" AND "`, as the spec's example `{minSalary: 100,
title: "eng"}` shows concretely. -/
theorem jobFindAll_fixed_order_composition (c : JobFindAllCriteria) :
    jobFindAllFilter c =
      ((match c.minSalary with | some _ => ["salary >= $1"] | none => []) ++
       (if c.hasEquity = some (.bool true) then ["equity > 0"] else []) ++
       (match c.title with
        | some _ => ["title ILIKE $" ++
            toString ((match c.minSalary with | some _ => 1 | none => 0) + 1)]
        | none => []),
       (match c.minSalary with | some v => [v] | none => []) ++
       (match c.title with
        | some t => [JsValue.str ("%" ++ t.jsToString ++ "%")]
        | none => [])) ∧
    (Job.findAll c).1 =
      jobBaseQuery ++
        (if (jobFindAllFilter c).1.length > 0 then
          " WHERE " ++ String.intercalate " AND " (jobFindAllFilter c).1
         else "") ++ " ORDER BY title" ∧
    Job.findAll { minSalary := some (.num 100), title := some (.str "eng") } =
      (jobBaseQuery ++ " WHERE salary >= $1 AND title ILIKE $2 ORDER BY title",
       [.num 100, .str "%eng%"]) := by
  obtain ⟨ms, he, ti⟩ := c
  refine ⟨?_, ?_, by rfl⟩
  · by_cases hhe : he = some (JsValue.bool true) <;>
      cases ms <;> cases ti <;> simp [jobFindAllFilter, hhe] <;> rfl
  · rfl

/-- C6: a supplied `title` makes `Job.findAll` push exactly one bound value,
the wildcard-wrapped pattern `%<title>%`, referenced by the emitted
case-insensitive predicate `title ILIKE $n` with `n` the value's 1-based
position; the generated SQL text is identical for any two title values, so
the raw title reaches the statement only through the bound parameter
list. -/
theorem jobFindAll_title_parameterized (ms he : Option JsValue) (t t2 : JsValue) :
    (jobFindAllFilter ⟨ms, he, some t⟩).2 =
      (jobFindAllFilter ⟨ms, he, none⟩).2 ++
        [JsValue.str ("%" ++ t.jsToString ++ "%")] ∧
    (jobFindAllFilter ⟨ms, he, some t⟩).1 =
      (jobFindAllFilter ⟨ms, he, none⟩).1 ++
        ["title ILIKE $" ++
          toString ((jobFindAllFilter ⟨ms, he, none⟩).2.length + 1)] ∧
    (Job.findAll ⟨ms, he, some t⟩).1 = (Job.findAll ⟨ms, he, some t2⟩).1 := by
  by_cases hhe : he = some (JsValue.bool true) <;>
    cases ms <;> simp [Job.findAll, jobFindAllFilter, hhe]

/-- C7: with no contributing criteria, `Job.findAll`'s statement is the
unchanged base `SELECT` with no `WHERE` keyword and an empty parameter
list; and on every call, whatever the criteria, the statement is the base
query followed by a (possibly empty) predicate part and the fixed trailing
deterministic sort `ORDER BY title`. -/
theorem jobFindAll_no_criteria_base_query (c : JobFindAllCriteria)
    (h1 : c.minSalary = none) (h2 : c.hasEquity ≠ some (.bool true))
    (h3 : c.title = none) :
    Job.findAll c = (jobBaseQuery ++ " ORDER BY title", []) ∧
    jobFindAllFilter c = ([], []) ∧
    ∀ c' : JobFindAllCriteria, ∃ w,
      (Job.findAll c').1 = jobBaseQuery ++ w ++ " ORDER BY title" := by
  obtain ⟨ms, he, ti⟩ := c
  simp only [] at h1 h2 h3
  subst h1; subst h3
  refine ⟨by simp [Job.findAll, jobFindAllFilter, h2],
    by simp [jobFindAllFilter, h2], ?_⟩
  intro c'
  exact ⟨_, rfl⟩

/-- Witness for C7 at the empty criteria record `{}`. -/
theorem jobFindAll_no_criteria_base_query_witness :
    Job.findAll {} = (jobBaseQuery ++ " ORDER BY title", []) ∧
    jobFindAllFilter {} = ([], []) ∧
    ∀ c' : JobFindAllCriteria, ∃ w,
      (Job.findAll c').1 = jobBaseQuery ++ w ++ " ORDER BY title" :=
  jobFindAll_no_criteria_base_query {} rfl (by decide) rfl

/-- C8: `Job.get` fails exactly when no jobs row matches the id, with the
`NotFound` error carrying the missing id in its message, and in that case
its outcome is independent of the companies table (the second lookup is
never reached); when a row matches, the result carries the row's fields
with the raw `companyHandle` removed from the top level (the result shape
has no such field) and the fetched company record nested in its place. -/
theorem jobGet_notFound_and_nesting (db : Database) (id : Int) :
    ((∃ e, Job.get db id = .error e) ↔
       db.jobs.filter (fun j => j.id = id) = []) ∧
    (db.jobs.filter (fun j => j.id = id) = [] →
       ∀ cs cs' : List CompanyRow,
         Job.get ⟨db.jobs, cs⟩ id =
           .error (.notFound ("No job: " ++ toString id)) ∧
         Job.get ⟨db.jobs, cs⟩ id = Job.get ⟨db.jobs, cs'⟩ id) ∧
    (∀ job, (db.jobs.filter (fun j => j.id = id)).head? = some job →
       Job.get db id =
         .ok { id := job.id, title := job.title, salary := job.salary,
               equity := job.equity,
               company := (db.companies.filter
                 (fun cr => cr.handle = job.companyHandle)).head? }) := by
  refine ⟨?_, ?_, ?_⟩
  · cases hh : (db.jobs.filter (fun j => j.id = id)).head? with
    | none =>
      constructor
      · intro _; exact List.head?_eq_none_iff.mp hh
      · intro _
        exact ⟨JoblyError.notFound ("No job: " ++ toString id),
          by simp [Job.get, hh]⟩
    | some j =>
      have hok : Job.get db id =
          .ok { id := j.id, title := j.title, salary := j.salary,
                equity := j.equity,
                company := (db.companies.filter
                  (fun cr => cr.handle = j.companyHandle)).head? } := by
        simp [Job.get, hh]
      constructor
      · rintro ⟨e, he⟩
        rw [hok] at he
        exact Except.noConfusion he
      · intro hnil; rw [hnil] at hh; exact Option.noConfusion hh
  · intro hnil cs cs'
    have hh : (db.jobs.filter (fun j => j.id = id)).head? = none :=
      List.head?_eq_none_iff.mpr hnil
    exact ⟨by simp [Job.get, hh], by simp [Job.get, hh]⟩
  · intro job hj
    simp [Job.get, hj]

/-- A jobs-table fixture row. -/
def jobRowEx : JobRow :=
  { id := 7, title := "Engineer", salary := .num 100, equity := .str "0.05",
    companyHandle := "acme" }

/-- A companies-table fixture row. -/
def companyRowEx : CompanyRow :=
  { handle := "acme", name := "Acme", description := "d",
    numEmployees := .num 10, logoUrl := .null }

/-- A database fixture: one job belonging to one company. -/
def dbEx : Database := { jobs := [jobRowEx], companies := [companyRowEx] }

/-- Witness for C8: the success half on the one-job fixture database, and
the not-found half on an empty jobs table with two different companies
tables. -/
theorem jobGet_notFound_and_nesting_witness :
    (Job.get dbEx 7 =
       .ok { id := jobRowEx.id, title := jobRowEx.title,
             salary := jobRowEx.salary, equity := jobRowEx.equity,
             company := (dbEx.companies.filter
               (fun cr => cr.handle = jobRowEx.companyHandle)).head? }) ∧
    (Job.get ⟨[], [companyRowEx]⟩ 3 =
       .error (.notFound ("No job: " ++ toString (3 : Int))) ∧
     Job.get ⟨[], [companyRowEx]⟩ 3 = Job.get ⟨[], []⟩ 3) :=
  ⟨(jobGet_notFound_and_nesting dbEx 7).2.2 jobRowEx (by rfl),
   (jobGet_notFound_and_nesting ⟨[], [companyRowEx]⟩ 3).2.1 (by rfl)
     [companyRowEx] []⟩

/-- C9 counterexample: at the concrete request `{minEmployees: 3,
maxEmployees: 1}` (lower bound greater than upper bound), the companies
list handler does not reject — it reaches the filter builder and returns
the always-false bounds query with both values bound, raising no error of
any kind. -/
theorem companiesHandler_min_gt_max_counterexample :
    companiesListHandler { minEmployees := some (.num 3),
                           maxEmployees := some (.num 1) } =
      .ok (["\"num_employees\" >= $1", "\"num_employees\" <= $2"],
           [.num 3, .num 1]) ∧
    ¬ ∃ e, companiesListHandler { minEmployees := some (.num 3),
                                  maxEmployees := some (.num 1) } = .error e := by
  refine ⟨rfl, ?_⟩
  rintro ⟨e, he⟩
  have hok : companiesListHandler
      { minEmployees := some (.num 3), maxEmployees := some (.num 1) } =
      .ok (["\"num_employees\" >= $1", "\"num_employees\" <= $2"],
           [.num 3, .num 1]) := rfl
  rw [hok] at he
  exact Except.noConfusion he

/-- C9 as amended: no caller-level cross-field validation exists — for
every pair of numeric bounds with lower greater than upper, the request
passes schema validation, reaches the filter builder, and silently yields
the always-false bounds query (`>=` the larger value and `<=` the smaller)
with no `InvalidRange`/bad-request error signaled anywhere. -/
theorem companiesHandler_min_gt_max_reaches_builder (mn mx : Int)
    (h : mn > mx) :
    companiesListHandler { minEmployees := some (.num mn),
                           maxEmployees := some (.num mx) } =
      .ok (["\"num_employees\" >= $1", "\"num_employees\" <= $2"],
           [.num mn, .num mx]) := by
  have h1 : ("\"num_employees\" >= $" ++ toString (1 : Nat)) =
    "\"num_employees\" >= $1" := rfl
  have h2 : ("\"num_employees\" <= $" ++ toString (2 : Nat)) =
    "\"num_employees\" <= $2" := rfl
  simp [companiesListHandler, companySearchSchemaValid, companyFindAllFilter,
    h1, h2]

/-- Witness for the amended C9 at bounds 3 > 1. -/
theorem companiesHandler_min_gt_max_reaches_builder_witness :
    companiesListHandler { minEmployees := some (.num 3),
                           maxEmployees := some (.num 1) } =
      .ok (["\"num_employees\" >= $1", "\"num_employees\" <= $2"],
           [.num 3, .num 1]) :=
  companiesHandler_min_gt_max_reaches_builder 3 1 (by decide)

/-- C10: the column-name fallback of `sqlForPartialUpdate` triggers on any
falsy field-map entry, not only on an absent key: whenever the map's entry
for a key is absent or maps to a falsy value (the empty string, `null`,
`false`, `0`), the emitted identifier is the key itself, double-quoted —
a mapping to the empty string is silently ignored rather than producing an
empty column name or an error. -/
theorem sqlForPartialUpdate_falsy_fallback
    (m : List (String × JsValue)) (k : String) (v : JsValue)
    (h : ∀ w, m.lookup k = some w → w.falsy = true) :
    resolveCol m k = k ∧
    sqlForPartialUpdate [(k, v)] m = .ok ("\"" ++ k ++ "\"=$1", [v]) := by
  have hres : resolveCol m k = k := by
    unfold resolveCol
    cases hl : m.lookup k with
    | none => rfl
    | some w => simp [h w hl]
  refine ⟨hres, ?_⟩
  rw [sqlForPartialUpdate_ok _ _ (by simp)]
  simp only [updateFragmentsFrom, updateFragment, hres,
    String.intercalate, String.intercalate.go]
  rw [String.append_assoc ("\"" ++ k) "\"=$" (toString (0 + 1 : Nat)),
    show ("\"=$" : String) ++ toString (0 + 1 : Nat) = "\"=$1" from rfl]
  simp

/-- Witness for C10: the key `age` mapped to the empty string still emits
`"age"=$1`. -/
theorem sqlForPartialUpdate_falsy_fallback_witness :
    resolveCol [("age", JsValue.str "")] "age" = "age" ∧
    sqlForPartialUpdate [("age", JsValue.num 5)] [("age", JsValue.str "")] =
      .ok ("\"" ++ "age" ++ "\"=$1", [JsValue.num 5]) :=
  sqlForPartialUpdate_falsy_fallback [("age", JsValue.str "")] "age"
    (JsValue.num 5)
    (by
      intro w hw
      rw [show List.lookup "age" [("age", JsValue.str "")] =
        some (JsValue.str "") from rfl] at hw
      cases hw
      rfl)

end Jobly
